import Mathlib

/-!
Shallow embedding of `broxus/ton-block-compressor` (`src/lib.rs`): a thin
wrapper (`ZstdWrapper`) around the external zstd streaming codec, holding a
reusable output buffer and encoder/decoder dictionary projections built from
one embedded raw dictionary.

Bytes are modelled as `List Nat`.  The external zstd library is not code of
this repository; it is modelled as an abstract `ZstdCodec` — a deterministic
total `encode` (dictionary bytes, level, input) and a fallible `decode`
(dictionary bytes, frame), carrying zstd's documented contract that decoding
a frame with the same dictionary it was encoded with restores the input.
The embedded dictionary asset (`include_bytes!("../dictionary")`) is a binary
blob not present in the source tree, so constructions are parametrised by the
raw dictionary bytes.

The wrapper methods are translated line by line from `src/lib.rs`:

* `io::Cursor::new(&mut vec)` starts at position 0; streaming the whole frame
  through it overwrites the vector from index 0 and extends it as needed, so
  writing `data` turns `v` into `data ++ v.drop data.length` with final
  position `data.length`.
* `compress` (`&mut self`) writes the frame into `self.buffer` through such a
  cursor without resetting the buffer first, and returns the slice
  `buffer[0..out_pos]` where `out_pos` is the final cursor position.
* `decompress` (`&mut self`) first runs `self.buffer.truncate(0)`, then
  streams the decoded bytes into the buffer and returns `buffer[0..out_pos]`.
  On a decode failure the buffer has already been truncated, so `decompress`
  returns the updated wrapper state together with an optional result.
* `compress_owned` / `decompress_owned` (`&self`) write into a fresh
  `Vec::with_capacity(bytes.len())` and return it; the capacity hint has no
  observable effect on contents, so the fresh vector is modelled as `[]`.

Encoding to an in-memory cursor has no failure condition in the source beyond
codec-internal resource exhaustion, which a pure embedding cannot exhibit, so
`encode` is total; `decode` returns `Option`, `none` standing for the
`DecompressionError` case.
-/

/-- Abstract model of the external zstd streaming codec, parametrised by the
raw dictionary bytes.  `decode_encode` is zstd's documented contract: a frame
encoded with a dictionary decodes, with the same dictionary, back to the
exact input. -/
structure ZstdCodec where
  encode : List Nat → Int → List Nat → List Nat
  decode : List Nat → List Nat → Option (List Nat)
  decode_encode : ∀ d level x, decode d (encode d level x) = some x

/-- `zstd::dict::DecoderDictionary::copy`: stores a copy of the raw
dictionary bytes; level-independent. -/
structure DecoderDictionary where
  raw : List Nat
deriving Repr, DecidableEq

/-- `zstd::dict::EncoderDictionary::copy`: stores a copy of the raw
dictionary bytes together with the chosen compression level. -/
structure EncoderDictionary where
  raw : List Nat
  level : Int
deriving Repr, DecidableEq

/-- `ZstdWrapper` from `src/lib.rs`: decoder projection, encoder projection,
and the reusable output buffer. -/
structure ZstdWrapper where
  d_dict : DecoderDictionary
  c_dict : EncoderDictionary
  buffer : List Nat
deriving Repr, DecidableEq

/-- `zstd::DEFAULT_COMPRESSION_LEVEL` (the constant is 3; the source doc
comment says "constructs zstd compressor with 3 compression level"). -/
def DEFAULT_COMPRESSION_LEVEL : Int := 3

/-- `ZstdWrapper::with_level`: copies the embedded raw dictionary into a
decoder projection and an encoder projection tuned for `level`, with an empty
buffer.  The embedded asset `include_bytes!("../dictionary")` is not in the
source tree, so the raw bytes are a parameter `dict`.  The Rust signature is
`fn with_level(level: i32) -> Self`: construction is total, there is no
error path. -/
def ZstdWrapper.with_level (dict : List Nat) (level : Int) : ZstdWrapper :=
  { d_dict := { raw := dict }
    c_dict := { raw := dict, level := level }
    buffer := [] }

/-- `ZstdWrapper::new`: `with_level(zstd::DEFAULT_COMPRESSION_LEVEL)`. -/
def ZstdWrapper.new (dict : List Nat) : ZstdWrapper :=
  ZstdWrapper.with_level dict DEFAULT_COMPRESSION_LEVEL

/-- `ZstdWrapper::compress` (`&mut self`): streams `bytes` through the
encoder into a cursor over `self.buffer` starting at position 0 (no reset
first), reads the final cursor position `out_pos`, and returns the slice
`buffer[0..out_pos]`.  Returns the updated wrapper and the returned view. -/
def ZstdWrapper.compress (c : ZstdCodec) (w : ZstdWrapper) (bytes : List Nat) :
    ZstdWrapper × List Nat :=
  let frame := c.encode w.c_dict.raw w.c_dict.level bytes
  let buffer := frame ++ w.buffer.drop frame.length
  let out_pos := frame.length
  ({ w with buffer := buffer }, buffer.take out_pos)

/-- `ZstdWrapper::compress_owned` (`&self`): streams `bytes` through the
encoder into a cursor over a fresh vector and returns that vector.  The
wrapper is taken immutably; no state is returned because none changes. -/
def ZstdWrapper.compress_owned (c : ZstdCodec) (w : ZstdWrapper)
    (bytes : List Nat) : List Nat :=
  let out_buffer : List Nat := []
  let frame := c.encode w.c_dict.raw w.c_dict.level bytes
  frame ++ out_buffer.drop frame.length

/-- `ZstdWrapper::decompress_owned` (`&self`): streams `bytes` through the
decoder into a cursor over a fresh vector and returns it; a decode failure
propagates as `none` (`DecompressionError`). -/
def ZstdWrapper.decompress_owned (c : ZstdCodec) (w : ZstdWrapper)
    (bytes : List Nat) : Option (List Nat) :=
  let out_buffer : List Nat := []
  match c.decode w.d_dict.raw bytes with
  | none => none
  | some out => some (out ++ out_buffer.drop out.length)

/-- `ZstdWrapper::decompress` (`&mut self`): first `self.buffer.truncate(0)`,
then streams `bytes` through the decoder into a cursor over the buffer,
reads the final position `out_pos`, and returns `buffer[0..out_pos]`.  On a
decode failure the buffer has already been truncated; the updated wrapper is
returned in both cases. -/
def ZstdWrapper.decompress (c : ZstdCodec) (w : ZstdWrapper)
    (bytes : List Nat) : ZstdWrapper × Option (List Nat) :=
  let w0 := { w with buffer := w.buffer.take 0 }
  match c.decode w0.d_dict.raw bytes with
  | none => (w0, none)
  | some out =>
    let buffer := out ++ w0.buffer.drop out.length
    let out_pos := out.length
    ({ w0 with buffer := buffer }, some (buffer.take out_pos))

/-- A concrete codec used to witness the hypotheses of the theorems below:
`encode` prefixes a `0` byte, `decode` strips it and fails on anything
else. -/
def tagCodec : ZstdCodec where
  encode := fun _ _ x => 0 :: x
  decode := fun _ y =>
    match y with
    | 0 :: x => some x
    | _ => none
  decode_encode := by intro d level x; rfl

theorem take_length_append (l t : List Nat) : (l ++ t).take l.length = l := by
  simp

/-- C1: for every byte sequence `x` (empty included), decompressing the
result of compressing `x` with the same wrapper returns exactly `x`, in both
the buffer-reusing mode and the owned mode. -/
theorem c1_roundtrip_both_modes (c : ZstdCodec) (w : ZstdWrapper)
    (x : List Nat) (hd : w.d_dict.raw = w.c_dict.raw) :
    (ZstdWrapper.decompress c (ZstdWrapper.compress c w x).1
        (ZstdWrapper.compress c w x).2).2 = some x ∧
    ZstdWrapper.decompress_owned c w (ZstdWrapper.compress_owned c w x) =
      some x := by
  constructor
  · simp [ZstdWrapper.compress, ZstdWrapper.decompress, take_length_append,
      hd, c.decode_encode]
  · simp [ZstdWrapper.compress_owned, ZstdWrapper.decompress_owned, hd,
      c.decode_encode]

theorem c1_roundtrip_both_modes_witness :
    (ZstdWrapper.decompress tagCodec
        (ZstdWrapper.compress tagCodec (ZstdWrapper.new [1, 2]) [5, 0, 7]).1
        (ZstdWrapper.compress tagCodec (ZstdWrapper.new [1, 2]) [5, 0, 7]).2).2 =
      some [5, 0, 7] ∧
    ZstdWrapper.decompress_owned tagCodec (ZstdWrapper.new [1, 2])
        (ZstdWrapper.compress_owned tagCodec (ZstdWrapper.new [1, 2])
          [5, 0, 7]) = some [5, 0, 7] :=
  c1_roundtrip_both_modes tagCodec (ZstdWrapper.new [1, 2]) [5, 0, 7] rfl

/-- C2: after a compress call whose frame is longer than the next call's
frame, the view returned by the second call has length exactly the number of
bytes the encoder wrote in that call, equals that frame, and is strictly
shorter than the buffer's physical contents (the residue of the earlier,
longer call stays in the buffer but not in the view). -/
theorem c2_buffer_reuse_isolation (c : ZstdCodec) (w : ZstdWrapper)
    (x1 x2 : List Nat)
    (h : (c.encode w.c_dict.raw w.c_dict.level x2).length <
      (c.encode w.c_dict.raw w.c_dict.level x1).length) :
    ((ZstdWrapper.compress c (ZstdWrapper.compress c w x1).1 x2).2).length =
      (c.encode w.c_dict.raw w.c_dict.level x2).length ∧
    (ZstdWrapper.compress c (ZstdWrapper.compress c w x1).1 x2).2 =
      c.encode w.c_dict.raw w.c_dict.level x2 ∧
    ((ZstdWrapper.compress c (ZstdWrapper.compress c w x1).1 x2).2).length <
      ((ZstdWrapper.compress c (ZstdWrapper.compress c w x1).1 x2).1).buffer.length := by
  refine ⟨?_, ?_, ?_⟩
  · simp only [ZstdWrapper.compress, take_length_append, List.length_append,
      List.length_take, List.length_drop]
  · simp only [ZstdWrapper.compress, take_length_append]
  · simp only [ZstdWrapper.compress, take_length_append, List.length_append,
      List.length_drop]
    omega

theorem c2_buffer_reuse_isolation_witness :
    0 < 3 ∧
    (((ZstdWrapper.compress tagCodec
        (ZstdWrapper.compress tagCodec (ZstdWrapper.new []) [1, 2]).1 []).2).length =
      (tagCodec.encode [] 3 []).length ∧
    (ZstdWrapper.compress tagCodec
        (ZstdWrapper.compress tagCodec (ZstdWrapper.new []) [1, 2]).1 []).2 =
      tagCodec.encode [] 3 [] ∧
    ((ZstdWrapper.compress tagCodec
        (ZstdWrapper.compress tagCodec (ZstdWrapper.new []) [1, 2]).1 []).2).length <
    ((ZstdWrapper.compress tagCodec
        (ZstdWrapper.compress tagCodec (ZstdWrapper.new []) [1, 2]).1 []).1).buffer.length) :=
  ⟨by decide, c2_buffer_reuse_isolation tagCodec (ZstdWrapper.new []) [1, 2] [] (by decide)⟩

/-- C3: cross-mode wire compatibility — the owned decompressor restores the
output of the buffer-reusing compressor, and the buffer-reusing decompressor
restores the output of the owned compressor. -/
theorem c3_cross_mode_roundtrip (c : ZstdCodec) (w : ZstdWrapper)
    (x : List Nat) (hd : w.d_dict.raw = w.c_dict.raw) :
    ZstdWrapper.decompress_owned c w (ZstdWrapper.compress c w x).2 = some x ∧
    (ZstdWrapper.decompress c w (ZstdWrapper.compress_owned c w x)).2 =
      some x := by
  constructor
  · simp [ZstdWrapper.compress, ZstdWrapper.decompress_owned,
      take_length_append, hd, c.decode_encode]
  · simp [ZstdWrapper.compress_owned, ZstdWrapper.decompress, hd,
      c.decode_encode]

theorem c3_cross_mode_roundtrip_witness :
    ZstdWrapper.decompress_owned tagCodec (ZstdWrapper.new [4])
        (ZstdWrapper.compress tagCodec (ZstdWrapper.new [4]) [8, 9]).2 =
      some [8, 9] ∧
    (ZstdWrapper.decompress tagCodec (ZstdWrapper.new [4])
        (ZstdWrapper.compress_owned tagCodec (ZstdWrapper.new [4]) [8, 9])).2 =
      some [8, 9] :=
  c3_cross_mode_roundtrip tagCodec (ZstdWrapper.new [4]) [8, 9] rfl

/-- C4: `decompress` fails exactly when the codec cannot decode the input as
a frame for the wrapper's dictionary, and decompressing the frame obtained by
compressing the empty input succeeds with an empty result. -/
theorem c4_decompress_error_iff_invalid (c : ZstdCodec) (w : ZstdWrapper)
    (hd : w.d_dict.raw = w.c_dict.raw) :
    (∀ y, (ZstdWrapper.decompress c w y).2 = none ↔
      c.decode w.d_dict.raw y = none) ∧
    (ZstdWrapper.decompress c (ZstdWrapper.compress c w []).1
        (ZstdWrapper.compress c w []).2).2 = some [] := by
  constructor
  · intro y
    cases hy : c.decode w.d_dict.raw y <;>
      simp [ZstdWrapper.decompress, hy]
  · simp [ZstdWrapper.compress, ZstdWrapper.decompress, take_length_append,
      hd, c.decode_encode]

theorem c4_decompress_error_iff_invalid_witness :
    ((ZstdWrapper.decompress tagCodec (ZstdWrapper.new [2]) [1]).2 = none ↔
      tagCodec.decode (ZstdWrapper.new [2]).d_dict.raw [1] = none) ∧
    (ZstdWrapper.decompress tagCodec
        (ZstdWrapper.compress tagCodec (ZstdWrapper.new [2]) []).1
        (ZstdWrapper.compress tagCodec (ZstdWrapper.new [2]) []).2).2 =
      some [] :=
  ⟨(c4_decompress_error_iff_invalid tagCodec (ZstdWrapper.new [2]) rfl).1 [1],
    (c4_decompress_error_iff_invalid tagCodec (ZstdWrapper.new [2]) rfl).2⟩

/-- C5: compression is deterministic — compressing `x` twice in sequence on
the same wrapper yields the identical view, and two wrappers carrying the
same encoder projection (in particular two instances built by `with_level`
with the same level) yield identical views on `x`. -/
theorem c5_determinism (c : ZstdCodec) (w w2 : ZstdWrapper) (x : List Nat)
    (h : w.c_dict = w2.c_dict) :
    (ZstdWrapper.compress c (ZstdWrapper.compress c w x).1 x).2 =
      (ZstdWrapper.compress c w x).2 ∧
    (ZstdWrapper.compress c w x).2 = (ZstdWrapper.compress c w2 x).2 := by
  constructor
  · simp [ZstdWrapper.compress, take_length_append]
  · simp [ZstdWrapper.compress, take_length_append, h]

theorem c5_determinism_witness :
    (ZstdWrapper.compress tagCodec
        (ZstdWrapper.compress tagCodec (ZstdWrapper.new [6]) [1, 1, 2]).1
        [1, 1, 2]).2 =
      (ZstdWrapper.compress tagCodec (ZstdWrapper.new [6]) [1, 1, 2]).2 ∧
    (ZstdWrapper.compress tagCodec (ZstdWrapper.new [6]) [1, 1, 2]).2 =
      (ZstdWrapper.compress tagCodec
        { d_dict := { raw := [6] }, c_dict := { raw := [6], level := 3 },
          buffer := [9, 9, 9, 9] } [1, 1, 2]).2 :=
  c5_determinism tagCodec (ZstdWrapper.new [6])
    { d_dict := { raw := [6] }, c_dict := { raw := [6], level := 3 },
      buffer := [9, 9, 9, 9] } [1, 1, 2] rfl

/-- C6: the two buffer-reusing operations treat the internal buffer
asymmetrically — `decompress` truncates the buffer's logical length to zero
before writing, so the buffer afterwards is exactly the decoded output (and
empty on failure) with no dependence on prior contents, while `compress`
performs no reset: it overwrites from position zero, the previous contents
survive past the final write position (the buffer never shrinks), and only
the final write position bounds the returned view. -/
theorem c6_asymmetric_buffer_clear (c : ZstdCodec) (w : ZstdWrapper)
    (x y : List Nat) :
    ((ZstdWrapper.decompress c w y).1.buffer =
      match c.decode w.d_dict.raw y with
      | none => []
      | some out => out) ∧
    (ZstdWrapper.compress c w x).1.buffer =
      c.encode w.c_dict.raw w.c_dict.level x ++
        w.buffer.drop (c.encode w.c_dict.raw w.c_dict.level x).length ∧
    w.buffer.length ≤ (ZstdWrapper.compress c w x).1.buffer.length ∧
    (ZstdWrapper.compress c w x).2 =
      (ZstdWrapper.compress c w x).1.buffer.take
        (c.encode w.c_dict.raw w.c_dict.level x).length := by
  refine ⟨?_, ?_, ?_, ?_⟩
  · cases hy : c.decode w.d_dict.raw y <;> simp [ZstdWrapper.decompress, hy]
  · simp [ZstdWrapper.compress]
  · simp only [ZstdWrapper.compress, List.length_append, List.length_drop]
    omega
  · simp [ZstdWrapper.compress]

/-- C7 (amended): wrapper construction is infallible — `with_level` is a
total function for every dictionary content and level, and it yields encoder
and decoder projections copied from the same raw bytes, with the encoder
projection tuned for the requested level; `new` delegates to `with_level`
at the default level. -/
theorem c7_construction_infallible (dict : List Nat) (level : Int) :
    (ZstdWrapper.with_level dict level).c_dict.raw =
      (ZstdWrapper.with_level dict level).d_dict.raw ∧
    (ZstdWrapper.with_level dict level).c_dict.level = level ∧
    (ZstdWrapper.with_level dict level).buffer = [] ∧
    ZstdWrapper.new dict = ZstdWrapper.with_level dict DEFAULT_COMPRESSION_LEVEL := by
  exact ⟨rfl, rfl, rfl, rfl⟩

/-- C7 counterexample: construction cannot surface any error.  Even on a
one-byte blob, which is not a well-formed zstd dictionary, `with_level`
succeeds and returns a wrapper value — its return type has no error
component, so the claimed `DictionaryError` failure path does not exist. -/
theorem c7_counterexample :
    ZstdWrapper.with_level [7] (-3) =
      { d_dict := { raw := [7] }, c_dict := { raw := [7], level := -3 },
        buffer := [] } := rfl

/-- C8: the owned operations never read or write the wrapper's reusable
buffer — they take the wrapper immutably (the embedding gives them no state
to return) and their results are determined solely by the dictionary
projections and the input, computed in a fresh output vector. -/
theorem c8_owned_ops_no_wrapper_mutation (c : ZstdCodec) (w : ZstdWrapper)
    (x : List Nat) (b : List Nat) :
    ZstdWrapper.compress_owned c { w with buffer := b } x =
      ZstdWrapper.compress_owned c w x ∧
    ZstdWrapper.decompress_owned c { w with buffer := b } x =
      ZstdWrapper.decompress_owned c w x ∧
    ZstdWrapper.compress_owned c w x =
      c.encode w.c_dict.raw w.c_dict.level x ∧
    ZstdWrapper.decompress_owned c w x = c.decode w.d_dict.raw x := by
  refine ⟨rfl, rfl, by simp [ZstdWrapper.compress_owned], ?_⟩
  cases hx : c.decode w.d_dict.raw x <;>
    simp [ZstdWrapper.decompress_owned, hx]

/-- C10: the buffer-reusing and owned implementations compute the same
functions — the view returned by `compress` equals the vector returned by
`compress_owned`, and the optional view returned by `decompress` equals the
optional vector returned by `decompress_owned`, failure for failure. -/
theorem c10_modes_compute_same_function (c : ZstdCodec) (w : ZstdWrapper)
    (x y : List Nat) :
    (ZstdWrapper.compress c w x).2 = ZstdWrapper.compress_owned c w x ∧
    (ZstdWrapper.decompress c w y).2 = ZstdWrapper.decompress_owned c w y := by
  constructor
  · simp [ZstdWrapper.compress, ZstdWrapper.compress_owned, take_length_append]
  · cases hy : c.decode w.d_dict.raw y <;>
      simp [ZstdWrapper.decompress, ZstdWrapper.decompress_owned, hy]
